import Mathlib

/-!
Shallow embedding of the cart → order → payment core of the
E-Commerce-Store repository.

Monetary values are embedded as rationals (`ℚ`); every concrete amount
appearing in the spec's scenarios (10.00, 0.1, 5.00, …) is exact both as a
rational and as an IEEE double, so no rounding behaviour is lost on the
inputs the claims are about.  Inventory counters are embedded as `Int`
because the JavaScript code manipulates them with ordinary subtraction
(they can transiently go negative in a document before Mongoose's
`min: 0` validator rejects the save).

Source files embedded here:
  * `src/models/Cart.ts`    — cart schema and methods (`calculateTotals`,
    `clearCart`, item construction in `addItem`);
  * `src/models/Order.ts`   — order schema, pre-save status-history hook;
  * `src/models/Product.ts` — product/variant schema (inventory `min: 0`);
  * `src/controllers/cartController.ts` — `createOrder`,
    `updateOrderStatus`;
  * `src/controllers/paymentController.ts` — `confirmPayment`,
    `handleWebhook`, `createRefund`.
-/

namespace ECom

abbrev Money := ℚ
abbrev Pid := Nat
abbrev Uid := Nat
abbrev Oid := Nat

/-- Discount type enum of the Cart/Order discount sub-schema. -/
inductive DiscountType
  | percentage
  | fixed
  deriving DecidableEq, Repr

/-- Discount record as stored on a cart (`cart.discount`) and copied onto an
order (`discount: cart.discount` in `createOrder`). -/
structure Discount where
  code : String
  dtype : DiscountType
  value : Money
  deriving DecidableEq, Repr

/-- Cart tax sub-record: `cart.tax = \x7b rate, amount \x7d`. -/
structure TaxInfo where
  rate : Money
  amount : Money
  deriving DecidableEq, Repr

/-- Cart shipping-method selection (`cart.shippingMethod`), as set by
`setShippingMethod`. -/
structure ShippingSel where
  sid : String
  sname : String
  price : Money
  deriving DecidableEq, Repr

/-- One cart line (`CartItemSchema`).  `subtotal` is stored on the line and
maintained by `addItem`/`updateItemQuantity` as `price * quantity`;
`maxQuantity` is the stock observed at the last sync. -/
structure CartItem where
  product : Pid
  iname : String
  price : Money
  quantity : Nat
  variantId : Option String
  subtotal : Money
  maxQuantity : Int
  deriving DecidableEq, Repr

/-- Cart document (`CartSchema`).  Exactly one of `customer`/session owns it;
the session id is irrelevant to the claims so only `customer` is kept. -/
structure Cart where
  customer : Option Uid
  items : List CartItem
  subtotal : Money
  discountCode : Option String
  discount : Option Discount
  tax : Option TaxInfo
  shippingMethod : Option ShippingSel
  total : Money
  deriving DecidableEq, Repr

/-- Discount amount computed inside `calculateTotals` (Cart.ts lines
321–328): `subtotal * value` for a percentage discount,
`Math.min(value, subtotal)` for a fixed one, `0` when no discount is set. -/
def discountAmountOf (subtotal : Money) : Option Discount → Money
  | none => 0
  | some d =>
    match d.dtype with
    | .percentage => subtotal * d.value
    | .fixed => min d.value subtotal

/-- Tax amount a cart currently stores (`cart.tax.amount`, `0` when unset). -/
def cartTaxAmount (c : Cart) : Money :=
  match c.tax with
  | some t => t.amount
  | none => 0

/-- Shipping cost used by `calculateTotals` (Cart.ts lines 338–341): the
selected method's price, else `0`. -/
def cartShippingCost (c : Cart) : Money :=
  match c.shippingMethod with
  | some m => m.price
  | none => 0

/-- `CartSchema.methods.calculateTotals` (Cart.ts lines 316–347):
recomputes `subtotal` as the sum of the line subtotals, the discount
amount, the tax amount `(subtotal - discountAmount) * rate` (stored back
into `tax.amount`), the shipping cost, and
`total = subtotal - discountAmount + taxAmount + shippingCost`. -/
def calculateTotals (c : Cart) : Cart :=
  let subtotal := (c.items.map (fun i => i.subtotal)).sum
  let discountAmount := discountAmountOf subtotal c.discount
  let taxAmount :=
    match c.tax with
    | some t => (subtotal - discountAmount) * t.rate
    | none => 0
  let tax' := c.tax.map (fun t => { t with amount := (subtotal - discountAmount) * t.rate })
  let shippingCost :=
    match c.shippingMethod with
    | some m => m.price
    | none => 0
  { c with
      subtotal := subtotal
      tax := tax'
      total := subtotal - discountAmount + taxAmount + shippingCost }

/-- New cart line as built by the `addItem` branch for a product without an
existing line (Cart.ts lines 210–233): `subtotal := price * quantity`,
`maxQuantity := inventory`. -/
def mkCartItem (pid : Pid) (nm : String) (price : Money) (quantity : Nat)
    (variantId : Option String) (inventory : Int) : CartItem :=
  { product := pid
    iname := nm
    price := price
    quantity := quantity
    variantId := variantId
    subtotal := price * quantity
    maxQuantity := inventory }

/-- `CartSchema.methods.clearCart` (Cart.ts lines 273–283). -/
def clearCart (c : Cart) : Cart :=
  { c with
      items := []
      subtotal := 0
      discount := none
      discountCode := none
      tax := none
      shippingMethod := none
      total := 0 }

/-- Product variant (`ProductVariantSchema`): the fields the checkout reads. -/
structure Variant where
  vid : String
  vprice : Money
  inventory : Int
  deriving DecidableEq, Repr

/-- Product document (`ProductSchema`): the fields the checkout reads.  The
schema declares `inventory: \x7b min: [0, ...] \x7d`, so a save of a document
whose (variant) inventory is negative is rejected by Mongoose validation. -/
structure Product where
  pid : Pid
  pname : String
  pprice : Money
  inventory : Int
  isActive : Bool
  variants : List Variant
  deriving DecidableEq, Repr

/-- `Product.findById` against the store. -/
def findProduct (ps : List Product) (pid : Pid) : Option Product :=
  ps.find? (fun p => p.pid == pid)

/-- `product.save()`: Mongoose runs the schema validators; the `min: 0`
bounds on `inventory` (product and variants) reject a negative counter, so
the save yields `none` (a rejected promise) and the stored document is
unchanged. -/
def saveProduct (p : Product) : Option Product :=
  if p.inventory < 0 ∨ p.variants.any (fun v => v.inventory < 0) then none
  else some p

/-- Writing a successfully saved document back into the store (the document
was loaded by `findById`, so it replaces the entry with its id). -/
def storeProduct (ps : List Product) (p : Product) : List Product :=
  ps.map (fun q => if q.pid == p.pid then p else q)

/-- Order status enum (`OrderSchema.status`). -/
inductive OrderStatus
  | pending
  | processing
  | shipped
  | delivered
  | cancelled
  | refunded
  deriving DecidableEq, Repr

/-- Payment status enum (`PaymentSchema.status`). -/
inductive PaymentStatus
  | pending
  | processing
  | completed
  | refunded
  | failed
  deriving DecidableEq, Repr

/-- Payment sub-record (`PaymentSchema`). -/
structure Payment where
  method : String
  status : PaymentStatus
  transactionId : Option String
  amount : Money
  paidAt : Option Nat
  deriving DecidableEq, Repr

/-- Order line snapshot (`OrderItemSchema`). -/
structure OrderItem where
  product : Pid
  iname : String
  price : Money
  quantity : Nat
  variantId : Option String
  subtotal : Money
  deriving DecidableEq, Repr

/-- One status-history entry (`OrderStatusHistorySchema`); timestamps and
actors are irrelevant to the claims. -/
structure StatusEntry where
  status : OrderStatus
  note : Option String
  deriving DecidableEq, Repr

/-- Addresses are copied wholesale by the checkout, so they are embedded as
an opaque payload. -/
abbrev Address := String

/-- Shipping-method snapshot stored on the order (`ShippingMethodSchema`). -/
structure ShippingSnapshot where
  sname : String
  carrier : String
  price : Money
  deriving DecidableEq, Repr

/-- Order document (`OrderSchema`): the fields the claims are about.  Note
that `createOrder` passes `tax: cart.tax` when creating the document, so
the stored tax is the cart's tax record. -/
structure Order where
  oid : Oid
  customer : Uid
  items : List OrderItem
  billingAddress : Address
  shippingAddress : Address
  payment : Payment
  shippingMethod : ShippingSnapshot
  subtotal : Money
  shippingCost : Money
  discount : Option Discount
  tax : Option TaxInfo
  total : Money
  status : OrderStatus
  statusHistory : List StatusEntry
  deriving DecidableEq, Repr

/-- Pre-save hook on a new order (Order.ts lines 739–745): pushes an
initial history entry with note "Order created". -/
def saveNewOrder (o : Order) : Order :=
  { o with statusHistory := o.statusHistory ++ [{ status := o.status, note := some "Order created" }] }

/-- Pre-save hook on an existing order (Order.ts lines 746–751): pushes a
history entry iff the `status` path was modified.  Mongoose marks a path
modified only when the assigned value differs from the stored one, so the
entry is appended exactly when the status actually changed. -/
def saveExistingOrder (old new : Order) : Order :=
  if new.status ≠ old.status then
    { new with statusHistory := new.statusHistory ++ [{ status := new.status, note := none }] }
  else new

/-- Tax amount an order stores (`order.tax.amount`, `0` when unset). -/
def orderTaxAmount (o : Order) : Money :=
  match o.tax with
  | some t => t.amount
  | none => 0

/-- The five monetary fields frozen at order creation, whose joint
immutability claim C1 asserts. -/
def moneyFields (o : Order) : Money × Money × Option Discount × Option TaxInfo × Money :=
  (o.total, o.subtotal, o.discount, o.tax, o.shippingCost)

/-- Error kinds raised by the embedded controllers; each constructor
corresponds to one `throw` site in the source. -/
inductive OrderErr
  | cartNotFound            -- `No cart found with id`
  | forbidden               -- `Cart does not belong to this user`
  | emptyCart               -- `Cannot create order with empty cart`
  | productNotFound         -- `Product not found`
  | productUnavailable      -- `Product is no longer available`
  | variantNotFound         -- `Variant not found for product`
  | insufficientStock       -- `Not enough inventory for ...`
  | inventorySaveRejected   -- Mongoose validation failure on `product.save()`
  | orderNotFound           -- `Order not found with id`
  | notAuthorized           -- `Not authorized to access this order`
  | paymentNotSucceeded     -- `Payment not successful`
  | noPaymentTransaction    -- `Order has no payment transaction`
  | alreadyRefunded         -- `Order is already refunded`
  | refundFailed            -- `Failed to create refund`
  deriving DecidableEq, Repr

/-- Inventory visible for a cart line during checkout re-validation
(cartController.ts lines 481–491): the matching variant's counter when the
line carries a variant id, else the product's flat counter. -/
def itemInventory (p : Product) (item : CartItem) : Except OrderErr Int :=
  match item.variantId with
  | some v =>
    match p.variants.find? (fun w => w.vid == v) with
    | none => .error .variantNotFound
    | some w => .ok w.inventory
  | none => .ok p.inventory

/-- Checkout re-validation loop (cartController.ts lines 468–496): for every
cart line, the product must exist, be active, and have stock ≥ quantity. -/
def checkItems (ps : List Product) : List CartItem → Option OrderErr
  | [] => none
  | item :: rest =>
    match findProduct ps item.product with
    | none => some .productNotFound
    | some p =>
      if ¬ p.isActive then some .productUnavailable
      else
        match itemInventory p item with
        | .error e => some e
        | .ok inv =>
          if inv < (item.quantity : Int) then some .insufficientStock
          else checkItems ps rest

/-- In-place update of the variant found by `findIndex` (cartController.ts
lines 552–557): subtract the quantity at the matched index. -/
def decrementVariantAt : List Variant → Nat → Int → List Variant
  | [], _, _ => []
  | v :: vs, 0, q => { v with inventory := v.inventory - q } :: vs
  | v :: vs, n + 1, q => v :: decrementVariantAt vs n q

/-- One iteration body of the decrement loop (cartController.ts lines
551–561): mutate the loaded document's counter (variant slot when the line
names one and it is found, else the flat counter). -/
def decrementProduct (p : Product) (item : CartItem) : Product :=
  match item.variantId with
  | some v =>
    match p.variants.findIdx? (fun w => w.vid == v) with
    | some i => { p with variants := decrementVariantAt p.variants i (item.quantity : Int) }
    | none => p
  | none => { p with inventory := p.inventory - (item.quantity : Int) }

/-- Decrement loop of `createOrder` (cartController.ts lines 547–564): for
each line, re-load the product (a missing product is silently skipped),
subtract the quantity, and `save()`.  A rejected save (negative counter)
propagates as an uncaught error, aborting the loop with the earlier
decrements already persisted. -/
def decrementItems (ps : List Product) : List CartItem → List Product × Option OrderErr
  | [] => (ps, none)
  | item :: rest =>
    match findProduct ps item.product with
    | none => decrementItems ps rest
    | some p =>
      match saveProduct (decrementProduct p item) with
      | none => (ps, some .inventorySaveRejected)
      | some p' => decrementItems (storeProduct ps p') rest

/-- Shipping method as supplied in the `POST /orders` request body. -/
structure ShippingReq where
  sname : String
  carrier : String
  price : Money
  deriving DecidableEq, Repr

/-- `POST /orders` request body (cartController.ts lines 434–440) plus the
authenticated user.  There is no billing-address field: the interface
cannot carry one. -/
structure CreateOrderReq where
  userId : Uid
  shippingAddress : Address
  paymentMethod : String
  shippingMethod : ShippingReq
  deriving DecidableEq, Repr

/-- Everything `createOrder` leaves behind: the product store, the source
cart (when one existed), the created order (when reached), and the error
(when thrown). -/
structure CreateOutcome where
  products : List Product
  cart : Option Cart
  order : Option Order
  error : Option OrderErr
  deriving DecidableEq, Repr

/-- The order document as `Order.create` persists it (cartController.ts
lines 498–545 together with the new-document history hook): line snapshots
with `subtotal: price * quantity`, `status = pending`, `payment.status =
pending`, `payment.amount = cart.total`, `billingAddress =
shippingAddress` (the source comment reads "Using shipping address as
billing address"), `subtotal/tax/discount/total` frozen from the cart, and
`shippingCost` taken from the request's shipping method. -/
def buildOrder (req : CreateOrderReq) (cart : Cart) (newOid : Oid) : Order :=
  saveNewOrder
    { oid := newOid
      customer := req.userId
      items := cart.items.map (fun item =>
        { product := item.product
          iname := item.iname
          price := item.price
          quantity := item.quantity
          variantId := item.variantId
          subtotal := item.price * item.quantity })
      billingAddress := req.shippingAddress
      shippingAddress := req.shippingAddress
      payment :=
        { method := req.paymentMethod
          status := .pending
          transactionId := none
          amount := cart.total
          paidAt := none }
      shippingMethod :=
        { sname := req.shippingMethod.sname
          carrier := req.shippingMethod.carrier
          price := req.shippingMethod.price }
      subtotal := cart.subtotal
      shippingCost := req.shippingMethod.price
      discount := cart.discount
      tax := cart.tax
      total := cart.total
      status := .pending
      statusHistory := [] }

/-- `createOrder` (cartController.ts lines 433–575).  Control flow in
source order: load cart (`NotFound`), ownership check (the cart's owner,
when set, must be the requester), empty-cart check, per-line re-validation,
then `Order.create` of the `buildOrder` snapshot, the decrement loop, and
finally `cart.clearCart()`. -/
def createOrder (req : CreateOrderReq) (cartIn : Option Cart) (ps : List Product)
    (newOid : Oid) : CreateOutcome :=
  match cartIn with
  | none => ⟨ps, none, none, some .cartNotFound⟩
  | some cart =>
    if cart.customer.isSome ∧ cart.customer ≠ some req.userId then
      ⟨ps, some cart, none, some .forbidden⟩
    else if cart.items.isEmpty then
      ⟨ps, some cart, none, some .emptyCart⟩
    else
      match checkItems ps cart.items with
      | some e => ⟨ps, some cart, none, some e⟩
      | none =>
        let order := buildOrder req cart newOid
        match decrementItems ps cart.items with
        | (ps', some e) => ⟨ps', some cart, some order, some e⟩
        | (ps', none) => ⟨ps', some (clearCart cart), some order, none⟩

/-- In-place increment of the variant found by `findIndex`
(cartController.ts lines 668–671). -/
def incrementVariantAt : List Variant → Nat → Int → List Variant
  | [], _, _ => []
  | v :: vs, 0, q => { v with inventory := v.inventory + q } :: vs
  | v :: vs, n + 1, q => v :: incrementVariantAt vs n q

/-- One iteration body of the restore loop (cartController.ts lines
663–676): add the quantity back to the matched variant slot or the flat
counter.  (The increments keep validated counters non-negative, so the
subsequent `save()` succeeds.) -/
def incrementProduct (p : Product) (item : OrderItem) : Product :=
  match item.variantId with
  | some v =>
    match p.variants.findIdx? (fun w => w.vid == v) with
    | some i => { p with variants := incrementVariantAt p.variants i (item.quantity : Int) }
    | none => p
  | none => { p with inventory := p.inventory + (item.quantity : Int) }

/-- Restore loop of `updateOrderStatus` (cartController.ts lines 662–678):
re-load each line's product (missing products are skipped), increment, and
save. -/
def restoreItems (ps : List Product) : List OrderItem → List Product
  | [] => ps
  | item :: rest =>
    match findProduct ps item.product with
    | none => restoreItems ps rest
    | some p => restoreItems (storeProduct ps (incrementProduct p item)) rest

/-- `updateOrderStatus` (cartController.ts lines 636–689) on a loaded
order.  (The route-level guards — invalid id, a status string outside the
enum, missing order — throw before the order is touched and are not part of
any claim; they are omitted here.)  The body first assigns `order.status =
status` (line 658) and only afterwards evaluates the restore condition
`status === 'cancelled' && order.status !== 'cancelled'` (line 661), so the
condition reads the already-assigned status: the translation below compares
`newStatus` against the updated order's status, exactly as the source
does.  Finally `order.save()` runs the history hook. -/
def updateOrderStatus (ps : List Product) (order : Order) (newStatus : OrderStatus) :
    List Product × Order :=
  let order1 := { order with status := newStatus }
  let ps' :=
    if newStatus = .cancelled ∧ order1.status ≠ .cancelled then
      restoreItems ps order1.items
    else ps
  (ps', saveExistingOrder order order1)

/-- Status of a Stripe payment intent, as reported by
`stripeService.getPaymentIntent`. -/
inductive IntentStatus
  | succeeded
  | processing
  | requiresPaymentMethod
  | canceled
  deriving DecidableEq, Repr

/-- `confirmPayment` (paymentController.ts lines 77–172) on a loaded
order.  In source order: the retrieved intent must be `succeeded`
(`PaymentNotSucceeded` otherwise), the order must exist and belong to the
requester; if `payment.status` is already `completed` the handler returns
success without touching the order (the returned flag is `true` in that
short-circuit case); otherwise it sets `payment.status = completed`,
`payment.transactionId`, `payment.paidAt`, `status = processing` and
saves.  (The confirmation e-mail is fire-and-forget and never mutates the
order.)  No product store is threaded because the function performs no
stock mutation. -/
def confirmPayment (intentStatus : IntentStatus) (intentId : String) (userId : Uid)
    (orderIn : Option Order) (now : Nat) : Except OrderErr (Order × Bool) :=
  if intentStatus ≠ .succeeded then .error .paymentNotSucceeded
  else
    match orderIn with
    | none => .error .orderNotFound
    | some order =>
      if order.customer ≠ userId then .error .notAuthorized
      else if order.payment.status = .completed then .ok (order, true)
      else
        let order1 :=
          { order with
              payment :=
                { order.payment with
                    status := .completed
                    transactionId := some intentId
                    paidAt := some now }
              status := .processing }
        .ok (saveExistingOrder order order1, false)

/-- `Order.findById` against the order store. -/
def findOrder (os : List Order) (oid : Oid) : Option Order :=
  os.find? (fun o => o.oid == oid)

/-- `Order.findOne(\x7b 'payment.transactionId': txn \x7d)`. -/
def findOrderByTxn (os : List Order) (txn : String) : Option Order :=
  os.find? (fun o => o.payment.transactionId == some txn)

/-- Writing a saved order back into the store. -/
def storeOrder (os : List Order) (o : Order) : List Order :=
  os.map (fun q => if q.oid == o.oid then o else q)

/-- Stripe webhook event after signature verification, dispatched on
`event.type` (paymentController.ts lines 224–293).  The intent events carry
the optional `metadata.orderId`; the charge event carries the
`payment_intent` id. -/
inductive StripeEvent
  | paymentIntentSucceeded (intentId : String) (orderId : Option Oid)
  | paymentIntentFailed (intentId : String) (orderId : Option Oid)
  | paymentIntentCanceled (intentId : String) (orderId : Option Oid)
  | chargeRefunded (paymentIntent : String)
  | otherEvent (tag : String)
  deriving DecidableEq, Repr

/-- HTTP response of the webhook endpoint: 200 `\x7b received: true \x7d` or
400 `\x7b success: false \x7d`. -/
inductive WebhookResponse
  | received
  | badRequest
  deriving DecidableEq, Repr

/-- Order update applied by the `payment_intent.succeeded` branch
(paymentController.ts lines 233–237). -/
def applySucceeded (intentId : String) (now : Nat) (o : Order) : Order :=
  saveExistingOrder o
    { o with
        payment :=
          { o.payment with
              status := .completed
              transactionId := some intentId
              paidAt := some now }
        status := .processing }

/-- Order update applied by the `payment_intent.payment_failed` and
`payment_intent.canceled` branches (paymentController.ts lines 252 and
268): `payment.status = 'failed'`, unconditionally. -/
def applyFailed (o : Order) : Order :=
  saveExistingOrder o { o with payment := { o.payment with status := .failed } }

/-- Order update applied by the `charge.refunded` branch
(paymentController.ts lines 283–285). -/
def applyRefunded (o : Order) : Order :=
  saveExistingOrder o
    { o with payment := { o.payment with status := .refunded }, status := .refunded }

/-- `handleWebhook` (paymentController.ts lines 207–303).  The entire body
— signature verification and all event processing — sits in a single
`try`, whose `catch` answers 400; only a run that reaches the end of the
`switch` answers `\x7b received: true \x7d`.  `sigValid` is whether
`constructWebhookEvent` accepts the signature; `saveRejects` is the
environment's verdict on the one `order.save()` a branch may attempt (a
rejected save is the representative internal processing error: it throws
into the catch-all with the store unchanged). -/
def handleWebhook (sigValid : Bool) (event : StripeEvent) (os : List Order)
    (now : Nat) (saveRejects : Bool) : List Order × WebhookResponse :=
  if ¬ sigValid then (os, .badRequest)
  else
    match event with
    | .paymentIntentSucceeded intentId orderId =>
      match orderId with
      | none => (os, .received)
      | some oid =>
        match findOrder os oid with
        | none => (os, .received)
        | some o =>
          if o.payment.status ≠ .completed then
            if saveRejects then (os, .badRequest)
            else (storeOrder os (applySucceeded intentId now o), .received)
          else (os, .received)
    | .paymentIntentFailed _ orderId =>
      match orderId with
      | none => (os, .received)
      | some oid =>
        match findOrder os oid with
        | none => (os, .received)
        | some o =>
          if saveRejects then (os, .badRequest)
          else (storeOrder os (applyFailed o), .received)
    | .paymentIntentCanceled _ orderId =>
      match orderId with
      | none => (os, .received)
      | some oid =>
        match findOrder os oid with
        | none => (os, .received)
        | some o =>
          if saveRejects then (os, .badRequest)
          else (storeOrder os (applyFailed o), .received)
    | .chargeRefunded paymentIntent =>
      match findOrderByTxn os paymentIntent with
      | none => (os, .received)
      | some o =>
        if saveRejects then (os, .badRequest)
        else (storeOrder os (applyRefunded o), .received)
    | .otherEvent _ => (os, .received)

/-- `createRefund` (paymentController.ts lines 310–362) on a loaded order:
`NoPaymentTransaction` without a provider transaction id, `AlreadyRefunded`
when `payment.status` is already `refunded`; otherwise the provider refund
runs (`providerOk` is its verdict — a provider failure surfaces as
`Failed to create refund` with the order untouched) and only then are
`payment.status` and `status` set to `refunded`. -/
def createRefund (orderIn : Option Order) (providerOk : Bool) : Except OrderErr Order :=
  match orderIn with
  | none => .error .orderNotFound
  | some o =>
    if o.payment.transactionId = none then .error .noPaymentTransaction
    else if o.payment.status = .refunded then .error .alreadyRefunded
    else if ¬ providerOk then .error .refundFailed
    else
      .ok (saveExistingOrder o
        { o with payment := { o.payment with status := .refunded }, status := .refunded })

/-!
Interleaving model for claim C2.  `createOrder`'s inventory handling for a
single-line cart against a flat-inventory product consists of four
suspension points (each an `await` on the shared product document):

  * pc 0 — validation read + check (cartController.ts lines 470, 490–495):
    `Product.findById`, then `inventory < quantity` throws
    `InsufficientStock`;
  * pc 1 — `Order.create` (line 521);
  * pc 2 — decrement read (line 549): `Product.findById` again;
  * pc 3 — decrement write (lines 559–562): `product.inventory -= qty`
    applied to the value read at pc 2, then `product.save()`, which the
    `min: 0` validator rejects when the result is negative;
  * pc 4 — `cart.clearCart()` (line 567).

Two concurrent checkouts are two such programs over one shared stock
counter; a schedule says which request runs its next step.
-/

/-- Local state of one in-flight checkout request. -/
structure CkLocal where
  qty : Nat
  pc : Nat
  readInv : Int
  failedWith : Option OrderErr
  orderCreated : Bool
  cartCleared : Bool
  deriving DecidableEq, Repr

/-- A fresh checkout request for quantity `q`. -/
def ckInit (q : Nat) : CkLocal :=
  { qty := q, pc := 0, readInv := 0, failedWith := none
    orderCreated := false, cartCleared := false }

/-- One step of one checkout request against the shared stock counter. -/
def ckStep (stock : Int) (l : CkLocal) : Int × CkLocal :=
  match l.pc with
  | 0 =>
    if stock < (l.qty : Int) then
      (stock, { l with failedWith := some .insufficientStock, pc := 9 })
    else (stock, { l with pc := 1 })
  | 1 => (stock, { l with orderCreated := true, pc := 2 })
  | 2 => (stock, { l with readInv := stock, pc := 3 })
  | 3 =>
    let newInv := l.readInv - (l.qty : Int)
    if newInv < 0 then
      (stock, { l with failedWith := some .inventorySaveRejected, pc := 9 })
    else (newInv, { l with pc := 4 })
  | 4 => (stock, { l with cartCleared := true, pc := 5 })
  | _ => (stock, l)

/-- Shared state of the two-checkout race. -/
structure RaceState where
  stock : Int
  reqA : CkLocal
  reqB : CkLocal
  deriving DecidableEq, Repr

/-- Run one scheduled step (`true` = request A, `false` = request B). -/
def raceStep (s : RaceState) : Bool → RaceState
  | true =>
    let (st, a') := ckStep s.stock s.reqA
    { s with stock := st, reqA := a' }
  | false =>
    let (st, b') := ckStep s.stock s.reqB
    { s with stock := st, reqB := b' }

/-- Run a whole schedule. -/
def runSchedule (sched : List Bool) (s : RaceState) : RaceState :=
  sched.foldl raceStep s

/-- A completed, successful checkout: no throw, order persisted, cart
cleared. -/
def ckSucceeded (l : CkLocal) : Prop :=
  l.failedWith = none ∧ l.orderCreated = true ∧ l.cartCleared = true

instance (l : CkLocal) : Decidable (ckSucceeded l) := by
  unfold ckSucceeded; infer_instance

/-!  Concrete fixtures used by the claim theorems and witnesses. -/

/-- The scenario cart of claim C9: one line of price 10.00 and quantity 2
(line built exactly as `addItem` builds it), a 10% tax rate, and a selected
shipping method of price 5.00.  The stored `subtotal`/`total` are the
stale pre-mutation values `calculateTotals` is about to overwrite. -/
def c9cart : Cart :=
  { customer := some 1
    items := [mkCartItem 1 "P1" 10 2 none 5]
    subtotal := 0
    discountCode := none
    discount := none
    tax := some { rate := 1/10, amount := 0 }
    shippingMethod := some { sid := "standard", sname := "Standard Shipping", price := 5 }
    total := 0 }

/-- Product store for the C10 witness checkout. -/
def c10prods : List Product :=
  [{ pid := 1, pname := "P1", pprice := 10, inventory := 5, isActive := true, variants := [] }]

/-- Cart for the C10 witness checkout. -/
def c10cart : Cart :=
  { customer := some 1
    items := [mkCartItem 1 "P1" 10 2 none 5]
    subtotal := 20
    discountCode := none
    discount := none
    tax := none
    shippingMethod := none
    total := 20 }

/-- Request for the C10 witness checkout. -/
def c10req : CreateOrderReq :=
  { userId := 1
    shippingAddress := "10 Main St"
    paymentMethod := "stripe"
    shippingMethod := { sname := "Standard Shipping", carrier := "UPS", price := 5 } }

/-- Product store for the C8 witness call. -/
def c8prods : List Product :=
  [{ pid := 1, pname := "P1", pprice := 10, inventory := 5, isActive := true, variants := [] }]

/-- An empty cart, the C8 witness's validation failure. -/
def c8cart : Cart :=
  { customer := some 1
    items := []
    subtotal := 0
    discountCode := none
    discount := none
    tax := none
    shippingMethod := none
    total := 0 }

/-- Request for the C8 witness call. -/
def c8req : CreateOrderReq :=
  { userId := 1
    shippingAddress := "10 Main St"
    paymentMethod := "stripe"
    shippingMethod := { sname := "Standard Shipping", carrier := "UPS", price := 5 } }

/-- C1 counterexample product store: P1, stock 5, active. -/
def c1prods : List Product :=
  [{ pid := 1, pname := "P1", pprice := 10, inventory := 5, isActive := true, variants := [] }]

/-- C1 counterexample cart: one line 10.00 × 2, no discount, no tax and —
crucially — no shipping method selected, so `calculateTotals` stored
`total = 20`.  (These are exactly the values `calculateTotals` computes for
this cart.) -/
def c1cart : Cart :=
  { customer := some 1
    items := [mkCartItem 1 "P1" 10 2 none 5]
    subtotal := 20
    discountCode := none
    discount := none
    tax := none
    shippingMethod := none
    total := 20 }

/-- C1 counterexample request: the client picks a shipping method of price
5.00 at checkout. -/
def c1req : CreateOrderReq :=
  { userId := 1
    shippingAddress := "10 Main St"
    paymentMethod := "stripe"
    shippingMethod := { sname := "Standard Shipping", carrier := "UPS", price := 5 } }

/-- C1 witness cart: same line, but the cart has the 5.00 shipping method
selected, so its stored total is 25. -/
def c1wcart : Cart :=
  { customer := some 1
    items := [mkCartItem 1 "P1" 10 2 none 5]
    subtotal := 20
    discountCode := none
    discount := none
    tax := none
    shippingMethod := some { sid := "standard", sname := "Standard Shipping", price := 5 }
    total := 25 }

/-- C3 product store. -/
def c3prods : List Product :=
  [{ pid := 1, pname := "P1", pprice := 10, inventory := 3, isActive := true, variants := [] }]

/-- C3 fixture: an order already in the terminal state `delivered`. -/
def c3order : Order :=
  { oid := 1
    customer := 1
    items := [{ product := 1, iname := "P1", price := 10, quantity := 2,
                variantId := none, subtotal := 20 }]
    billingAddress := "10 Main St"
    shippingAddress := "10 Main St"
    payment := { method := "stripe", status := .completed, transactionId := some "pi_1",
                 amount := 25, paidAt := some 0 }
    shippingMethod := { sname := "Standard Shipping", carrier := "UPS", price := 5 }
    subtotal := 20
    shippingCost := 5
    discount := none
    tax := none
    total := 25
    status := .delivered
    statusHistory := [{ status := .pending, note := some "Order created" }] }

/-- C4 product store: P1 with stock 3 (2 units were sold to the order). -/
def c4prods : List Product :=
  [{ pid := 1, pname := "P1", pprice := 10, inventory := 3, isActive := true, variants := [] }]

/-- C4 fixture: a pending order holding 2 units of P1, about to be
cancelled. -/
def c4order : Order :=
  { oid := 1
    customer := 1
    items := [{ product := 1, iname := "P1", price := 10, quantity := 2,
                variantId := none, subtotal := 20 }]
    billingAddress := "10 Main St"
    shippingAddress := "10 Main St"
    payment := { method := "stripe", status := .pending, transactionId := none,
                 amount := 25, paidAt := none }
    shippingMethod := { sname := "Standard Shipping", carrier := "UPS", price := 5 }
    subtotal := 20
    shippingCost := 5
    discount := none
    tax := none
    total := 25
    status := .pending
    statusHistory := [{ status := .pending, note := some "Order created" }] }

/-- C2: the lost-update interleaving — both requests pass validation and
both re-read the stock before either write lands. -/
def c2schedule : List Bool :=
  [true, false, true, false, true, false, true, false, true, false]

/-- C2: the fully sequential schedule (request A runs to completion, then
request B). -/
def c2seqSchedule : List Bool :=
  [true, true, true, true, true, false, false, false, false, false]

/-- C2: stock 5, two checkouts of quantity 3 each. -/
def c2init : RaceState :=
  { stock := 5, reqA := ckInit 3, reqB := ckInit 3 }

/-- C5 fixture: an order whose payment already completed (webhook or
confirmation already processed). -/
def c5order : Order :=
  { oid := 1
    customer := 1
    items := [{ product := 1, iname := "P1", price := 10, quantity := 2,
                variantId := none, subtotal := 20 }]
    billingAddress := "10 Main St"
    shippingAddress := "10 Main St"
    payment := { method := "stripe", status := .completed, transactionId := some "pi_1",
                 amount := 25, paidAt := some 0 }
    shippingMethod := { sname := "Standard Shipping", carrier := "UPS", price := 5 }
    subtotal := 20
    shippingCost := 5
    discount := none
    tax := none
    total := 25
    status := .processing
    statusHistory := [{ status := .pending, note := some "Order created" },
                      { status := .processing, note := none }] }

/-- C6 fixture: a freshly created order awaiting payment confirmation. -/
def c6order : Order :=
  { oid := 1
    customer := 1
    items := [{ product := 1, iname := "P1", price := 10, quantity := 2,
                variantId := none, subtotal := 20 }]
    billingAddress := "10 Main St"
    shippingAddress := "10 Main St"
    payment := { method := "stripe", status := .pending, transactionId := none,
                 amount := 25, paidAt := none }
    shippingMethod := { sname := "Standard Shipping", carrier := "UPS", price := 5 }
    subtotal := 20
    shippingCost := 5
    discount := none
    tax := none
    total := 25
    status := .pending
    statusHistory := [{ status := .pending, note := some "Order created" }] }

/-- C7 fixture: a pending-payment order whose webhook-triggered save is
about to be rejected by the database. -/
def c7order : Order :=
  { oid := 1
    customer := 1
    items := [{ product := 1, iname := "P1", price := 10, quantity := 2,
                variantId := none, subtotal := 20 }]
    billingAddress := "10 Main St"
    shippingAddress := "10 Main St"
    payment := { method := "stripe", status := .pending, transactionId := none,
                 amount := 25, paidAt := none }
    shippingMethod := { sname := "Standard Shipping", carrier := "UPS", price := 5 }
    subtotal := 20
    shippingCost := 5
    discount := none
    tax := none
    total := 25
    status := .pending
    statusHistory := [{ status := .pending, note := some "Order created" }] }

/-!  Shared helper lemmas. -/

/-- Schema-level well-formedness of a cart, mirroring the Mongoose `min`
validators: line subtotals, discount value, tax rate and shipping price are
non-negative on any persisted cart. -/
def CartWF (c : Cart) : Prop :=
  (∀ i ∈ c.items, 0 ≤ i.subtotal) ∧
  (match c.discount with
   | some d => 0 ≤ d.value
   | none => True) ∧
  (match c.tax with
   | some t => 0 ≤ t.rate
   | none => True) ∧
  (match c.shippingMethod with
   | some m => 0 ≤ m.price
   | none => True)

theorem calculateTotals_subtotal (c : Cart) :
    (calculateTotals c).subtotal = (c.items.map (fun i => i.subtotal)).sum := rfl

theorem calculateTotals_discount (c : Cart) : (calculateTotals c).discount = c.discount := rfl

theorem calculateTotals_shippingMethod (c : Cart) :
    (calculateTotals c).shippingMethod = c.shippingMethod := rfl

theorem calculateTotals_taxAmount (c : Cart) :
    cartTaxAmount (calculateTotals c) =
      match c.tax with
      | some t =>
        ((calculateTotals c).subtotal
          - discountAmountOf (calculateTotals c).subtotal c.discount) * t.rate
      | none => 0 := by
  cases htax : c.tax <;>
    simp [calculateTotals, cartTaxAmount, htax, calculateTotals_subtotal]

theorem calculateTotals_total (c : Cart) :
    (calculateTotals c).total =
      (calculateTotals c).subtotal
        - discountAmountOf (calculateTotals c).subtotal c.discount
        + cartTaxAmount (calculateTotals c)
        + cartShippingCost c := by
  cases htax : c.tax <;> cases hship : c.shippingMethod <;>
    simp [calculateTotals, cartTaxAmount, cartShippingCost, htax, hship]

theorem discountAmountOf_nonneg (s : Money) (d : Option Discount)
    (hs : 0 ≤ s) (hd : ∀ x, d = some x → 0 ≤ x.value) :
    0 ≤ discountAmountOf s d := by
  cases d with
  | none => simp [discountAmountOf]
  | some x =>
    have hx : 0 ≤ x.value := hd x rfl
    cases hdt : x.dtype <;> simp [discountAmountOf, hdt]
    · exact mul_nonneg hs hx
    · exact ⟨hx, hs⟩

theorem moneyFields_saveExisting (old new : Order) :
    moneyFields (saveExistingOrder old new) = moneyFields new := by
  unfold saveExistingOrder
  split <;> rfl

theorem updateOrderStatus_products (ps : List Product) (o : Order) (s : OrderStatus) :
    (updateOrderStatus ps o s).1 = ps := by
  unfold updateOrderStatus
  simp only []
  split
  · rename_i hcond
    exact absurd hcond.1 hcond.2
  · rfl

theorem moneyFields_applySucceeded (iid : String) (now : Nat) (o : Order) :
    moneyFields (applySucceeded iid now o) = moneyFields o := by
  unfold applySucceeded
  rw [moneyFields_saveExisting]
  rfl

theorem moneyFields_applyFailed (o : Order) :
    moneyFields (applyFailed o) = moneyFields o := by
  unfold applyFailed
  rw [moneyFields_saveExisting]
  rfl

theorem moneyFields_applyRefunded (o : Order) :
    moneyFields (applyRefunded o) = moneyFields o := by
  unfold applyRefunded
  rw [moneyFields_saveExisting]
  rfl

theorem findOrder_oid {os : List Order} {oid : Oid} {o : Order}
    (h : findOrder os oid = some o) : o.oid = oid := by
  have := List.find?_some h
  simpa using this

theorem mem_of_findOrder {os : List Order} {oid : Oid} {o : Order}
    (h : findOrder os oid = some o) : o ∈ os :=
  List.mem_of_find?_eq_some h

theorem findOrder_storeOrder {os : List Order} {oid : Oid} {o o' : Order}
    (h : findOrder os oid = some o) (h' : o'.oid = oid) :
    findOrder (storeOrder os o') oid = some o' := by
  induction os with
  | nil => simp [findOrder] at h
  | cons x xs ih =>
    by_cases hx : x.oid = oid
    · simp [findOrder, storeOrder, hx, h']
    · have hx' : (x.oid == oid) = false := by simpa using hx
      have hrec : findOrder xs oid = some o := by
        simpa [findOrder, List.find?, hx'] using h
      have hx'' : (x.oid == o'.oid) = false := by
        simp [h']
        exact hx
      have := ih hrec
      simpa [findOrder, storeOrder, List.find?, hx', hx''] using this

theorem mem_storeOrder {os : List Order} {o' x : Order}
    (hx : x ∈ storeOrder os o') : x = o' ∨ x ∈ os := by
  unfold storeOrder at hx
  rcases List.mem_map.1 hx with ⟨q, hq, rfl⟩
  by_cases h : q.oid = o'.oid
  · left; simp [h]
  · right; simpa [h] using hq

theorem decrementItems_err (items : List CartItem) :
    ∀ ps : List Product,
      (decrementItems ps items).2 = none ∨
      (decrementItems ps items).2 = some .inventorySaveRejected := by
  induction items with
  | nil => intro ps; left; rfl
  | cons item rest ih =>
    intro ps
    rcases hfp : findProduct ps item.product with _ | p
    · simpa [decrementItems, hfp] using ih ps
    · rcases hsv : saveProduct (decrementProduct p item) with _ | p'
      · simp [decrementItems, hfp, hsv]
      · simpa [decrementItems, hfp, hsv] using ih (storeProduct ps p')

theorem createOrder_order_eq {req : CreateOrderReq} {cartIn : Option Cart}
    {ps : List Product} {oid : Oid} {o : Order}
    (h : (createOrder req cartIn ps oid).order = some o) :
    ∃ cart, cartIn = some cart ∧ o = buildOrder req cart oid := by
  cases cartIn with
  | none => simp [createOrder] at h
  | some cart =>
    refine ⟨cart, rfl, ?_⟩
    simp only [createOrder] at h
    split_ifs at h with h1 h2
    rcases hchk : checkItems ps cart.items with _ | e <;> simp only [hchk] at h
    · rcases hdec : decrementItems ps cart.items with ⟨ps', e?⟩
      simp only [hdec] at h
      cases e? <;> simpa using h.symm
    · simp at h

/-! ### Claim C9 -/

/-- Claim C9: after every cart mutation `calculateTotals` establishes
`subtotal = Σ line subtotals`, `discountAmount = subtotal × value`
(percentage) or `min(value, subtotal)` (fixed) and never negative,
`taxAmount = (subtotal − discountAmount) × taxRate` when a tax rate is set
else 0, `shippingCost` = the selected method's price else 0, and
`total = subtotal − discountAmount + taxAmount + shippingCost`; in
particular the scenario cart yields subtotal 20.00, tax 2.00, shipping
5.00, total 27.00. -/
theorem calculateTotals_meets_claim (c : Cart) (hwf : CartWF c) :
    (calculateTotals c).subtotal = (c.items.map (fun i => i.subtotal)).sum ∧
    (cartTaxAmount (calculateTotals c) =
      match c.tax with
      | some t =>
        ((calculateTotals c).subtotal
          - discountAmountOf (calculateTotals c).subtotal c.discount) * t.rate
      | none => 0) ∧
    ((calculateTotals c).total =
      (calculateTotals c).subtotal
        - discountAmountOf (calculateTotals c).subtotal c.discount
        + cartTaxAmount (calculateTotals c)
        + cartShippingCost c) ∧
    0 ≤ discountAmountOf (calculateTotals c).subtotal c.discount ∧
    ((calculateTotals c9cart).subtotal = 20 ∧
      cartTaxAmount (calculateTotals c9cart) = 2 ∧
      cartShippingCost c9cart = 5 ∧
      (calculateTotals c9cart).total = 27) := by
  refine ⟨calculateTotals_subtotal c, calculateTotals_taxAmount c, calculateTotals_total c,
    ?_, ?_⟩
  · have hsub : 0 ≤ (calculateTotals c).subtotal := by
      rw [calculateTotals_subtotal]
      apply List.sum_nonneg
      intro x hx
      rcases List.mem_map.1 hx with ⟨i, hi, rfl⟩
      exact hwf.1 i hi
    refine discountAmountOf_nonneg _ _ hsub ?_
    intro x hx
    have := hwf.2.1
    rw [hx] at this
    exact this
  · refine ⟨?_, ?_, ?_, ?_⟩ <;>
      norm_num [c9cart, calculateTotals, cartTaxAmount, cartShippingCost, mkCartItem,
        discountAmountOf]

/-- Witness for claim C9: the scenario cart is well-formed, and applying
the theorem to it evaluates the totals. -/
theorem calculateTotals_meets_claim_witness :
    CartWF c9cart ∧ (calculateTotals c9cart).total = 27 :=
  ⟨by constructor <;> norm_num [c9cart, mkCartItem, CartWF],
    (calculateTotals_meets_claim c9cart
      (by constructor <;> norm_num [c9cart, mkCartItem, CartWF])).2.2.2.2.2.2.2⟩

/-! ### Claim C10 -/

/-- Claim C10 (implicit): every order created through `createOrder` stores
a `billingAddress` identical to the `shippingAddress` of the request; the
checkout interface (`CreateOrderReq`, mirroring the destructured request
body) has no billing-address field at all, even though the order schema
models billing and shipping as separate snapshots. -/
theorem createOrder_billing_is_shipping :
    ∀ (req : CreateOrderReq) (cartIn : Option Cart) (ps : List Product) (oid : Oid) (o : Order),
      (createOrder req cartIn ps oid).order = some o →
      o.billingAddress = req.shippingAddress ∧ o.billingAddress = o.shippingAddress := by
  intro req cartIn ps oid o h
  rcases createOrder_order_eq h with ⟨cart, -, rfl⟩
  exact ⟨rfl, rfl⟩

/-- Witness for claim C10: a concrete successful checkout, with the
theorem applied to it. -/
theorem createOrder_billing_is_shipping_witness :
    (createOrder c10req (some c10cart) c10prods 1).order = some (buildOrder c10req c10cart 1) ∧
    (buildOrder c10req c10cart 1).billingAddress = c10req.shippingAddress ∧
    (buildOrder c10req c10cart 1).billingAddress = (buildOrder c10req c10cart 1).shippingAddress :=
  ⟨by norm_num [createOrder, c10req, c10cart, c10prods, checkItems, findProduct,
      itemInventory, decrementItems, decrementProduct, saveProduct, storeProduct,
      mkCartItem, List.find?],
    (createOrder_billing_is_shipping c10req (some c10cart) c10prods 1
      (buildOrder c10req c10cart 1)
      (by norm_num [createOrder, c10req, c10cart, c10prods, checkItems, findProduct,
        itemInventory, decrementItems, decrementProduct, saveProduct, storeProduct,
        mkCartItem, List.find?])).1,
    (createOrder_billing_is_shipping c10req (some c10cart) c10prods 1
      (buildOrder c10req c10cart 1)
      (by norm_num [createOrder, c10req, c10cart, c10prods, checkItems, findProduct,
        itemInventory, decrementItems, decrementProduct, saveProduct, storeProduct,
        mkCartItem, List.find?])).2⟩

/-! ### Claim C8 -/

theorem createOrder_order_none {req : CreateOrderReq} {cart : Cart}
    {ps : List Product} {oid : Oid}
    (h : (createOrder req (some cart) ps oid).order = none) :
    createOrder req (some cart) ps oid =
      ⟨ps, some cart, none, (createOrder req (some cart) ps oid).error⟩ := by
  simp only [createOrder] at h ⊢
  split_ifs at h ⊢ with h1 h2
  · rfl
  · rfl
  · rcases hchk : checkItems ps cart.items with _ | e' <;> simp only [hchk] at h ⊢
    · rcases hdec : decrementItems ps cart.items with ⟨ps', e?⟩
      simp only [hdec] at h ⊢
      cases e? <;> simp at h

theorem createOrder_err_validation {req : CreateOrderReq} {cart : Cart}
    {ps : List Product} {oid : Oid} {e : OrderErr}
    (h : (createOrder req (some cart) ps oid).error = some e)
    (hne : e ≠ .inventorySaveRejected) :
    (createOrder req (some cart) ps oid).order = none := by
  simp only [createOrder] at h ⊢
  split_ifs at h ⊢ with h1 h2
  · rfl
  · rfl
  · rcases hchk : checkItems ps cart.items with _ | e' <;> simp only [hchk] at h ⊢
    · rcases hdec : decrementItems ps cart.items with ⟨ps', e?⟩
      have hshape := decrementItems_err cart.items ps
      rw [hdec] at hshape
      simp only [hdec] at h ⊢
      cases e? with
      | none => simp at h
      | some e'' =>
        exfalso
        apply hne
        have he1 : e'' = e := by simpa using h
        have he2 : e'' = .inventorySaveRejected := by simpa using hshape
        rw [← he1, he2]

/-- Claim C8: every `createOrder` call that fails validation — cart
missing, ownership mismatch, empty cart, missing/inactive product, missing
variant, or insufficient stock for some line — mutates nothing: no order
document is created, no inventory is decremented, and the source cart is
unchanged. -/

theorem createOrder_validation_failure_mutates_nothing :
    ∀ (req : CreateOrderReq) (cartIn : Option Cart) (ps : List Product) (oid : Oid)
      (e : OrderErr),
      (createOrder req cartIn ps oid).error = some e →
      (e = .cartNotFound ∨ e = .forbidden ∨ e = .emptyCart ∨ e = .productNotFound ∨
        e = .productUnavailable ∨ e = .variantNotFound ∨ e = .insufficientStock) →
      (createOrder req cartIn ps oid).products = ps ∧
      (createOrder req cartIn ps oid).cart = cartIn ∧
      (createOrder req cartIn ps oid).order = none := by
  intro req cartIn ps oid e herr hval
  cases cartIn with
  | none => exact ⟨rfl, rfl, rfl⟩
  | some cart =>
    have hne : e ≠ .inventorySaveRejected := by
      rcases hval with h | h | h | h | h | h | h <;> (subst h; simp)
    have hnone := createOrder_err_validation herr hne
    have hfix := createOrder_order_none hnone
    exact ⟨congrArg CreateOutcome.products hfix, congrArg CreateOutcome.cart hfix, hnone⟩

/-- Witness for claim C8: the empty-cart failure on a concrete call, with
the theorem applied to it. -/
theorem createOrder_validation_failure_mutates_nothing_witness :
    (createOrder c8req (some c8cart) c8prods 1).error = some .emptyCart ∧
    (createOrder c8req (some c8cart) c8prods 1).products = c8prods ∧
    (createOrder c8req (some c8cart) c8prods 1).cart = some c8cart ∧
    (createOrder c8req (some c8cart) c8prods 1).order = none :=
  ⟨by norm_num [createOrder, c8req, c8cart, c8prods],
    createOrder_validation_failure_mutates_nothing c8req (some c8cart) c8prods 1 .emptyCart
      (by norm_num [createOrder, c8req, c8cart, c8prods])
      (by simp)⟩

/-! ### Claim C1 -/

/-- Counterexample to claim C1 as stated: for the concrete checkout of
`c1cart` (no shipping method selected, frozen cart total 20) with a
request shipping method of price 5, the created order has `total = 20` but
`subtotal − discount + tax + shippingCost = 25`, because `createOrder`
freezes `total` from the cart while taking `shippingCost` from the
request. -/
theorem order_total_identity_counterexample :
    (createOrder c1req (some c1cart) c1prods 1).order = some (buildOrder c1req c1cart 1) ∧
    ¬ ((buildOrder c1req c1cart 1).total =
        (buildOrder c1req c1cart 1).subtotal
          - discountAmountOf (buildOrder c1req c1cart 1).subtotal
              (buildOrder c1req c1cart 1).discount
          + orderTaxAmount (buildOrder c1req c1cart 1)
          + (buildOrder c1req c1cart 1).shippingCost) := by
  constructor
  · norm_num [createOrder, c1req, c1cart, c1prods, checkItems, findProduct,
      itemInventory, decrementItems, decrementProduct, saveProduct, storeProduct,
      mkCartItem, List.find?]
  · norm_num [buildOrder, saveNewOrder, c1req, c1cart, discountAmountOf, orderTaxAmount]

/-- Claim C1 as amended: at creation the order freezes `total`, `subtotal`,
`discount` and `tax` from the cart but `shippingCost` from the request's
shipping method, so for any cart whose stored total satisfies the
`calculateTotals` identity the created order satisfies `total = subtotal −
discountAmount + taxAmount + (cart's shipping cost)`; the claimed identity
with `order.shippingCost` itself holds whenever the request's shipping
price equals the cart's selected shipping cost.  All five fields are
unchanged by every subsequent status or payment update (`updateOrderStatus`,
`confirmPayment`, every webhook event, `createRefund`). -/
theorem order_total_identity_amended :
    (∀ (req : CreateOrderReq) (cart : Cart) (ps : List Product) (oid : Oid) (o : Order),
      cart.total = cart.subtotal - discountAmountOf cart.subtotal cart.discount
        + cartTaxAmount cart + cartShippingCost cart →
      (createOrder req (some cart) ps oid).order = some o →
      (o.total = o.subtotal - discountAmountOf o.subtotal o.discount
          + orderTaxAmount o + cartShippingCost cart ∧
        (req.shippingMethod.price = cartShippingCost cart →
          o.total = o.subtotal - discountAmountOf o.subtotal o.discount
            + orderTaxAmount o + o.shippingCost))) ∧
    (∀ (ps : List Product) (o : Order) (s : OrderStatus),
      moneyFields (updateOrderStatus ps o s).2 = moneyFields o) ∧
    (∀ (ist : IntentStatus) (iid : String) (uid : Uid) (oIn : Option Order) (now : Nat)
        (o1 : Order) (flag : Bool),
      confirmPayment ist iid uid oIn now = .ok (o1, flag) →
      ∃ o0, oIn = some o0 ∧ moneyFields o1 = moneyFields o0) ∧
    (∀ (sig : Bool) (ev : StripeEvent) (os : List Order) (now : Nat) (sr : Bool)
        (o1 : Order),
      o1 ∈ (handleWebhook sig ev os now sr).1 →
      ∃ o0, o0 ∈ os ∧ moneyFields o1 = moneyFields o0) ∧
    (∀ (oIn : Option Order) (pok : Bool) (o1 : Order),
      createRefund oIn pok = .ok o1 →
      ∃ o0, oIn = some o0 ∧ moneyFields o1 = moneyFields o0) := by
  refine ⟨?_, ?_, ?_, ?_, ?_⟩
  · intro req cart ps oid o hcons hord
    rcases createOrder_order_eq hord with ⟨cart', hceq, rfl⟩
    obtain rfl : cart = cart' := Option.some.inj hceq
    have htax : orderTaxAmount (buildOrder req cart oid) = cartTaxAmount cart := rfl
    have htot : (buildOrder req cart oid).total = cart.total := rfl
    have hsub : (buildOrder req cart oid).subtotal = cart.subtotal := rfl
    have hdisc : (buildOrder req cart oid).discount = cart.discount := rfl
    have hsc : (buildOrder req cart oid).shippingCost = req.shippingMethod.price := rfl
    refine ⟨?_, ?_⟩
    · rw [htot, hsub, hdisc, htax]
      exact hcons
    · intro hship
      rw [htot, hsub, hdisc, htax, hsc, hship]
      exact hcons
  · intro ps o s
    simp only [updateOrderStatus]
    rw [moneyFields_saveExisting]
    rfl
  · intro ist iid uid oIn now o1 flag h
    unfold confirmPayment at h
    split at h
    · simp at h
    · split at h
      · simp at h
      · rename_i o0
        split at h
        · simp at h
        · split at h
          · simp only [Except.ok.injEq, Prod.mk.injEq] at h
            obtain ⟨rfl, -⟩ := h
            exact ⟨o0, rfl, rfl⟩
          · simp only [Except.ok.injEq, Prod.mk.injEq] at h
            obtain ⟨h1', -⟩ := h
            subst h1'
            refine ⟨o0, rfl, ?_⟩
            rw [moneyFields_saveExisting]
            rfl
  · intro sig ev os now sr o1 h1
    cases sig with
    | false =>
      refine ⟨o1, ?_, rfl⟩
      simpa [handleWebhook] using h1
    | true =>
      cases ev with
      | paymentIntentSucceeded iid oidm =>
        cases oidm with
        | none =>
          refine ⟨o1, ?_, rfl⟩
          simpa [handleWebhook] using h1
        | some oid =>
          rcases hfo : findOrder os oid with _ | o
          · refine ⟨o1, ?_, rfl⟩
            simpa [handleWebhook, hfo] using h1
          · by_cases hc : o.payment.status = PaymentStatus.completed
            · refine ⟨o1, ?_, rfl⟩
              simpa [handleWebhook, hfo, hc] using h1
            · cases sr with
              | true =>
                refine ⟨o1, ?_, rfl⟩
                simpa [handleWebhook, hfo, hc] using h1
              | false =>
                have h2 : o1 ∈ storeOrder os (applySucceeded iid now o) := by
                  simpa [handleWebhook, hfo, hc] using h1
                rcases mem_storeOrder h2 with rfl | hmem
                · exact ⟨o, mem_of_findOrder hfo, moneyFields_applySucceeded iid now o⟩
                · exact ⟨o1, hmem, rfl⟩
      | paymentIntentFailed iid oidm =>
        cases oidm with
        | none =>
          refine ⟨o1, ?_, rfl⟩
          simpa [handleWebhook] using h1
        | some oid =>
          rcases hfo : findOrder os oid with _ | o
          · refine ⟨o1, ?_, rfl⟩
            simpa [handleWebhook, hfo] using h1
          · cases sr with
            | true =>
              refine ⟨o1, ?_, rfl⟩
              simpa [handleWebhook, hfo] using h1
            | false =>
              have h2 : o1 ∈ storeOrder os (applyFailed o) := by
                simpa [handleWebhook, hfo] using h1
              rcases mem_storeOrder h2 with rfl | hmem
              · exact ⟨o, mem_of_findOrder hfo, moneyFields_applyFailed o⟩
              · exact ⟨o1, hmem, rfl⟩
      | paymentIntentCanceled iid oidm =>
        cases oidm with
        | none =>
          refine ⟨o1, ?_, rfl⟩
          simpa [handleWebhook] using h1
        | some oid =>
          rcases hfo : findOrder os oid with _ | o
          · refine ⟨o1, ?_, rfl⟩
            simpa [handleWebhook, hfo] using h1
          · cases sr with
            | true =>
              refine ⟨o1, ?_, rfl⟩
              simpa [handleWebhook, hfo] using h1
            | false =>
              have h2 : o1 ∈ storeOrder os (applyFailed o) := by
                simpa [handleWebhook, hfo] using h1
              rcases mem_storeOrder h2 with rfl | hmem
              · exact ⟨o, mem_of_findOrder hfo, moneyFields_applyFailed o⟩
              · exact ⟨o1, hmem, rfl⟩
      | chargeRefunded pi =>
        rcases hfo : findOrderByTxn os pi with _ | o
        · refine ⟨o1, ?_, rfl⟩
          simpa [handleWebhook, hfo] using h1
        · cases sr with
          | true =>
            refine ⟨o1, ?_, rfl⟩
            simpa [handleWebhook, hfo] using h1
          | false =>
            have h2 : o1 ∈ storeOrder os (applyRefunded o) := by
              simpa [handleWebhook, hfo] using h1
            rcases mem_storeOrder h2 with rfl | hmem
            · exact ⟨o, List.mem_of_find?_eq_some hfo, moneyFields_applyRefunded o⟩
            · exact ⟨o1, hmem, rfl⟩
      | otherEvent tg =>
        refine ⟨o1, ?_, rfl⟩
        simpa [handleWebhook] using h1
  · intro oIn pok o1 h
    unfold createRefund at h
    split at h
    · simp at h
    · rename_i o0
      by_cases hc1 : o0.payment.transactionId = none
      · rw [if_pos hc1] at h
        simp at h
      · rw [if_neg hc1] at h
        by_cases hc2 : o0.payment.status = PaymentStatus.refunded
        · rw [if_pos hc2] at h
          simp at h
        · rw [if_neg hc2] at h
          by_cases hc3 : pok = true
          · rw [if_neg (by simpa using hc3)] at h
            simp only [Except.ok.injEq] at h
            subst h
            refine ⟨o0, rfl, ?_⟩
            rw [moneyFields_saveExisting]
            rfl
          · rw [if_pos (by simpa using hc3)] at h
            simp at h

/-- Witness for the amended claim C1: a concrete checkout whose request
shipping price matches the cart's selection; the theorem's creation clause
applied to it yields the identity on the created order. -/
theorem order_total_identity_amended_witness :
    c1wcart.total = c1wcart.subtotal - discountAmountOf c1wcart.subtotal c1wcart.discount
        + cartTaxAmount c1wcart + cartShippingCost c1wcart ∧
    (createOrder c1req (some c1wcart) c1prods 1).order = some (buildOrder c1req c1wcart 1) ∧
    c1req.shippingMethod.price = cartShippingCost c1wcart ∧
    (buildOrder c1req c1wcart 1).total =
      (buildOrder c1req c1wcart 1).subtotal
        - discountAmountOf (buildOrder c1req c1wcart 1).subtotal
            (buildOrder c1req c1wcart 1).discount
        + orderTaxAmount (buildOrder c1req c1wcart 1)
        + (buildOrder c1req c1wcart 1).shippingCost :=
  ⟨by norm_num [c1wcart, discountAmountOf, cartTaxAmount, cartShippingCost],
    by norm_num [createOrder, c1req, c1wcart, c1prods, checkItems, findProduct,
      itemInventory, decrementItems, decrementProduct, saveProduct, storeProduct,
      mkCartItem, List.find?],
    by norm_num [c1req, c1wcart, cartShippingCost],
    ((order_total_identity_amended.1 c1req c1wcart c1prods 1 (buildOrder c1req c1wcart 1)
        (by norm_num [c1wcart, discountAmountOf, cartTaxAmount, cartShippingCost])
        (by norm_num [createOrder, c1req, c1wcart, c1prods, checkItems, findProduct,
          itemInventory, decrementItems, decrementProduct, saveProduct, storeProduct,
          mkCartItem, List.find?])).2
      (by norm_num [c1req, c1wcart, cartShippingCost]))⟩

/-! ### Claim C3 -/

/-- Counterexample to claim C3 as stated: cancelling the already-delivered
order `c3order` does not fail — `updateOrderStatus` returns the order with
`status = cancelled` (and a new history entry), so the order is not left
untouched and no `InvalidStateTransition` error exists anywhere in the
controller. -/
theorem invalid_transition_accepted_counterexample :
    ((updateOrderStatus c3prods c3order .cancelled).2).status = OrderStatus.cancelled ∧
    (updateOrderStatus c3prods c3order .cancelled).2 ≠ c3order := by
  have h1 : ((updateOrderStatus c3prods c3order .cancelled).2).status =
      OrderStatus.cancelled := by
    simp [updateOrderStatus, saveExistingOrder, c3order]
  refine ⟨h1, fun heq => ?_⟩
  rw [heq] at h1
  simp [c3order] at h1

/-- Claim C3 as amended: `updateOrderStatus` performs no state-machine
validation at all.  Any status in the enum is accepted from any state,
terminal ones included: the order's status is overwritten (appending a
history entry when it differs; a same-status update is a no-op), every
other field of the order is unchanged, and the product store is never
touched.  There is no `InvalidStateTransition` error. -/
theorem updateOrderStatus_no_transition_check :
    ∀ (ps : List Product) (o : Order) (s : OrderStatus),
      (updateOrderStatus ps o s).1 = ps ∧
      ((updateOrderStatus ps o s).2).status = s ∧
      (s ≠ o.status →
        (updateOrderStatus ps o s).2 =
          { o with status := s
                   statusHistory := o.statusHistory ++ [{ status := s, note := none }] }) ∧
      (s = o.status → (updateOrderStatus ps o s).2 = o) := by
  intro ps o s
  refine ⟨updateOrderStatus_products ps o s, ?_, ?_, ?_⟩
  · simp only [updateOrderStatus]
    unfold saveExistingOrder
    split <;> rfl
  · intro hne
    simp only [updateOrderStatus]
    unfold saveExistingOrder
    rw [if_pos hne]
  · intro heq
    subst heq
    simp only [updateOrderStatus]
    unfold saveExistingOrder
    rw [if_neg (by simp)]

/-- Witness for the amended claim C3: cancelling the delivered `c3order`
succeeds and only overwrites status/history. -/
theorem updateOrderStatus_no_transition_check_witness :
    (updateOrderStatus c3prods c3order .cancelled).1 = c3prods ∧
    ((updateOrderStatus c3prods c3order .cancelled).2).status = OrderStatus.cancelled ∧
    (updateOrderStatus c3prods c3order .cancelled).2 =
      { c3order with
          status := .cancelled
          statusHistory := c3order.statusHistory ++ [{ status := .cancelled, note := none }] } :=
  ⟨(updateOrderStatus_no_transition_check c3prods c3order .cancelled).1,
    (updateOrderStatus_no_transition_check c3prods c3order .cancelled).2.1,
    (updateOrderStatus_no_transition_check c3prods c3order .cancelled).2.2.1
      (by simp [c3order])⟩

/-! ### Claim C4 -/

/-- Claim C4 evaluated at its failing input: the cancellation-restores-stock
side effect never fires, because the source assigns `order.status = status`
before evaluating `status === 'cancelled' && order.status !== 'cancelled'`,
which is then always false.  Universally the product store is returned
unchanged, and concretely cancelling the pending `c4order` (2 units of P1)
leaves P1's inventory at 3 instead of restoring it to 5. -/
theorem cancellation_never_restores_stock :
    (∀ (ps : List Product) (o : Order) (s : OrderStatus),
      (updateOrderStatus ps o s).1 = ps) ∧
    (updateOrderStatus c4prods c4order .cancelled).1 = c4prods ∧
    ((findProduct ((updateOrderStatus c4prods c4order .cancelled).1) 1).map
      (fun p => p.inventory)) = some 3 ∧
    ((updateOrderStatus c4prods c4order .cancelled).2).status = OrderStatus.cancelled := by
  refine ⟨updateOrderStatus_products, updateOrderStatus_products _ _ _, ?_, ?_⟩
  · rw [updateOrderStatus_products]
    simp [c4prods, findProduct, List.find?]
  · simp [updateOrderStatus, saveExistingOrder, c4order]

/-! ### Claim C2 -/

/-- Claim C2 evaluated at its failing interleaving: under the lost-update
schedule (both checkouts validate against stock 5 and both re-read the
counter before either write lands) BOTH checkouts of quantity 3 succeed —
order created, stock written, cart cleared — and the final stock is 2, so
6 units were sold against a stock of 5; the claim's "exactly one succeeds,
the other fails with InsufficientStock" is false for this execution.  The
sequential schedule, by contrast, behaves exactly as the claim expects. -/
theorem concurrent_checkout_oversells :
    ckSucceeded (runSchedule c2schedule c2init).reqA ∧
    ckSucceeded (runSchedule c2schedule c2init).reqB ∧
    (runSchedule c2schedule c2init).stock = 2 ∧
    (runSchedule c2schedule c2init).reqA.qty + (runSchedule c2schedule c2init).reqB.qty = 6 ∧
    ¬ ((runSchedule c2schedule c2init).reqA.qty
        + (runSchedule c2schedule c2init).reqB.qty ≤ 5) ∧
    ckSucceeded (runSchedule c2seqSchedule c2init).reqA ∧
    (runSchedule c2seqSchedule c2init).reqB.failedWith = some .insufficientStock ∧
    (runSchedule c2seqSchedule c2init).stock = 2 := by
  decide

/-! ### Claim C5 -/

/-- Counterexample to claim C5 as stated: `c5order` has
`payment.status = completed`, yet delivering a `payment_intent.payment_failed`
webhook for it overwrites the payment status to `failed`. -/
theorem failed_webhook_overwrites_completed_counterexample :
    c5order.payment.status = PaymentStatus.completed ∧
    ((findOrder (handleWebhook true (.paymentIntentFailed "pi_1" (some 1))
        [c5order] 0 false).1 1).map (fun o => o.payment.status)) =
      some PaymentStatus.failed := by
  constructor
  · rfl
  · simp [handleWebhook, findOrder, c5order, applyFailed, saveExistingOrder,
      storeOrder, List.find?]

/-- Claim C5 as amended: the `payment_intent.payment_failed` (and
`canceled`) webhook branches overwrite `payment.status` with `failed`
unconditionally — a late failure event does clobber a completed payment;
only the `payment_intent.succeeded` branch is guarded by the
already-completed check and leaves a completed order untouched. -/
theorem failed_webhook_overwrites_completed_amended :
    (∀ (os : List Order) (oid : Oid) (o : Order) (iid : String) (now : Nat),
      findOrder os oid = some o →
      (handleWebhook true (.paymentIntentFailed iid (some oid)) os now false).1 =
        storeOrder os (applyFailed o) ∧
      (applyFailed o).payment.status = PaymentStatus.failed) ∧
    (∀ (os : List Order) (oid : Oid) (o : Order) (iid : String) (now : Nat),
      findOrder os oid = some o →
      (handleWebhook true (.paymentIntentCanceled iid (some oid)) os now false).1 =
        storeOrder os (applyFailed o) ∧
      (applyFailed o).payment.status = PaymentStatus.failed) ∧
    (∀ (os : List Order) (oid : Oid) (o : Order) (iid : String) (now : Nat) (sr : Bool),
      findOrder os oid = some o →
      o.payment.status = PaymentStatus.completed →
      handleWebhook true (.paymentIntentSucceeded iid (some oid)) os now sr =
        (os, .received)) := by
  refine ⟨?_, ?_, ?_⟩
  · intro os oid o iid now hfo
    constructor
    · simp [handleWebhook, hfo]
    · unfold applyFailed saveExistingOrder
      split <;> rfl
  · intro os oid o iid now hfo
    constructor
    · simp [handleWebhook, hfo]
    · unfold applyFailed saveExistingOrder
      split <;> rfl
  · intro os oid o iid now sr hfo hc
    simp [handleWebhook, hfo, hc]

/-- Witness for the amended claim C5: both halves applied to the completed
`c5order`. -/
theorem failed_webhook_overwrites_completed_amended_witness :
    findOrder [c5order] 1 = some c5order ∧
    (handleWebhook true (.paymentIntentFailed "pi_1" (some 1)) [c5order] 0 false).1 =
      storeOrder [c5order] (applyFailed c5order) ∧
    (handleWebhook true (.paymentIntentCanceled "pi_1" (some 1)) [c5order] 0 false).1 =
      storeOrder [c5order] (applyFailed c5order) ∧
    (applyFailed c5order).payment.status = PaymentStatus.failed ∧
    c5order.payment.status = PaymentStatus.completed ∧
    handleWebhook true (.paymentIntentSucceeded "pi_1" (some 1)) [c5order] 0 false =
      ([c5order], .received) :=
  ⟨rfl,
    (failed_webhook_overwrites_completed_amended.1 [c5order] 1 c5order "pi_1" 0 rfl).1,
    (failed_webhook_overwrites_completed_amended.2.1 [c5order] 1 c5order "pi_1" 0 rfl).1,
    (failed_webhook_overwrites_completed_amended.1 [c5order] 1 c5order "pi_1" 0 rfl).2,
    rfl,
    failed_webhook_overwrites_completed_amended.2.2 [c5order] 1 c5order "pi_1" 0 false rfl rfl⟩

/-! ### Claim C6 -/

/-- Claim C6: `confirmPayment` and the `payment_intent.succeeded` webhook
branch are idempotent.  For an unconfirmed order (customer matches, payment
not completed, status pending): the first `confirmPayment` yields exactly
the `applySucceeded` update — payment completed, order processing, exactly
one new history entry for the processing transition — and a second
`confirmPayment` on the result returns success (`already paid` flag) with
the order unchanged; delivering the same succeeded webhook twice leaves
the store after the first delivery untouched.  Neither function takes or
touches the product store, so no stock mutation can occur on either
application. -/
theorem payment_confirmation_idempotent :
    (∀ (o : Order) (iid : String) (uid : Uid) (now nowtwo : Nat),
      o.customer = uid → o.payment.status ≠ .completed → o.status = .pending →
        confirmPayment .succeeded iid uid (some o) now = .ok (applySucceeded iid now o, false) ∧
        (applySucceeded iid now o).payment.status = .completed ∧
        (applySucceeded iid now o).status = .processing ∧
        (applySucceeded iid now o).statusHistory =
          o.statusHistory ++ [{ status := .processing, note := none }] ∧
        confirmPayment .succeeded iid uid (some (applySucceeded iid now o)) nowtwo =
          .ok (applySucceeded iid now o, true)) ∧
    (∀ (os : List Order) (oid : Oid) (o : Order) (iid : String) (now nowtwo : Nat),
      findOrder os oid = some o →
      handleWebhook true (.paymentIntentSucceeded iid (some oid))
          (handleWebhook true (.paymentIntentSucceeded iid (some oid)) os now false).1
          nowtwo false =
        ((handleWebhook true (.paymentIntentSucceeded iid (some oid)) os now false).1,
          .received)) := by
  constructor
  · intro o iid uid now nowtwo hcust hnc hpend
    have hcust1 : (applySucceeded iid now o).customer = uid := by
      have h : (applySucceeded iid now o).customer = o.customer := by
        unfold applySucceeded saveExistingOrder
        split <;> rfl
      rw [h, hcust]
    have hp1 : (applySucceeded iid now o).payment.status = PaymentStatus.completed := by
      unfold applySucceeded saveExistingOrder
      split <;> rfl
    refine ⟨?_, hp1, ?_, ?_, ?_⟩
    · simp [confirmPayment, hcust, hnc, applySucceeded]
    · unfold applySucceeded saveExistingOrder
      split <;> rfl
    · unfold applySucceeded saveExistingOrder
      rw [if_pos (by simp [hpend])]
    · simp [confirmPayment, hcust1, hp1]
  · intro os oid o iid now nowtwo hfo
    by_cases hc : o.payment.status = PaymentStatus.completed
    · have h1 : handleWebhook true (.paymentIntentSucceeded iid (some oid)) os now false =
          (os, .received) := by
        simp [handleWebhook, hfo, hc]
      rw [h1]
      simp [handleWebhook, hfo, hc]
    · have ho : o.oid = oid := findOrder_oid hfo
      have h1 : (handleWebhook true (.paymentIntentSucceeded iid (some oid)) os now false).1 =
          storeOrder os (applySucceeded iid now o) := by
        simp [handleWebhook, hfo, hc]
      have hoid1 : (applySucceeded iid now o).oid = oid := by
        have h : (applySucceeded iid now o).oid = o.oid := by
          unfold applySucceeded saveExistingOrder
          split <;> rfl
        rw [h, ho]
      have hfind : findOrder (storeOrder os (applySucceeded iid now o)) oid =
          some (applySucceeded iid now o) := findOrder_storeOrder hfo hoid1
      have hp1 : (applySucceeded iid now o).payment.status = PaymentStatus.completed := by
        unfold applySucceeded saveExistingOrder
        split <;> rfl
      rw [h1]
      simp [handleWebhook, hfind, hp1]

/-- Witness for claim C6: the unconfirmed `c6order` confirmed twice and the
succeeded webhook delivered twice against the one-order store. -/
theorem payment_confirmation_idempotent_witness :
    confirmPayment .succeeded "pi_1" 1 (some c6order) 0 =
      .ok (applySucceeded "pi_1" 0 c6order, false) ∧
    (applySucceeded "pi_1" 0 c6order).statusHistory =
      c6order.statusHistory ++ [{ status := .processing, note := none }] ∧
    confirmPayment .succeeded "pi_1" 1 (some (applySucceeded "pi_1" 0 c6order)) 1 =
      .ok (applySucceeded "pi_1" 0 c6order, true) ∧
    handleWebhook true (.paymentIntentSucceeded "pi_1" (some 1))
        (handleWebhook true (.paymentIntentSucceeded "pi_1" (some 1)) [c6order] 0 false).1
        1 false =
      ((handleWebhook true (.paymentIntentSucceeded "pi_1" (some 1)) [c6order] 0 false).1,
        .received) :=
  ⟨(payment_confirmation_idempotent.1 c6order "pi_1" 1 0 1 rfl
      (by simp [c6order]) rfl).1,
    (payment_confirmation_idempotent.1 c6order "pi_1" 1 0 1 rfl
      (by simp [c6order]) rfl).2.2.2.1,
    (payment_confirmation_idempotent.1 c6order "pi_1" 1 0 1 rfl
      (by simp [c6order]) rfl).2.2.2.2,
    payment_confirmation_idempotent.2 [c6order] 1 c6order "pi_1" 0 1 rfl⟩

/-! ### Claim C7 -/

/-- Counterexample to claim C7 as stated: a verified
`payment_intent.succeeded` event whose order save is rejected by the
database (internal processing throws) is answered with 400, not
`\x7b received: true \x7d` — the single catch-all wraps all event processing,
not just signature verification. -/
theorem webhook_internal_error_counterexample :
    handleWebhook true (.paymentIntentSucceeded "pi_1" (some 1)) [c7order] 0 true =
      ([c7order], .badRequest) := by
  simp [handleWebhook, findOrder, c7order, List.find?]

/-- Claim C7 as amended: the endpoint answers `\x7b received: true \x7d` for
every signature-verified event whose processing completes without throwing
— in particular for every unrecognized event type — and answers 400 both
when signature verification fails and when processing of a recognized
event throws (the handler's catch-all converts any internal error into a
400 response). -/
theorem webhook_ack_amended :
    (∀ (ev : StripeEvent) (os : List Order) (now : Nat),
      (handleWebhook true ev os now false).2 = .received) ∧
    (∀ (ev : StripeEvent) (os : List Order) (now : Nat) (sr : Bool),
      (handleWebhook false ev os now sr).2 = .badRequest) ∧
    (∀ (tg : String) (os : List Order) (now : Nat) (sr : Bool),
      (handleWebhook true (.otherEvent tg) os now sr).2 = .received) := by
  refine ⟨?_, ?_, ?_⟩
  · intro ev os now
    cases ev with
    | paymentIntentSucceeded iid oidm =>
      cases oidm with
      | none => simp [handleWebhook]
      | some oid =>
        rcases hfo : findOrder os oid with _ | o
        · simp [handleWebhook, hfo]
        · by_cases hc : o.payment.status = PaymentStatus.completed
          · simp [handleWebhook, hfo, hc]
          · simp [handleWebhook, hfo, hc]
    | paymentIntentFailed iid oidm =>
      cases oidm with
      | none => simp [handleWebhook]
      | some oid =>
        rcases hfo : findOrder os oid with _ | o <;> simp [handleWebhook, hfo]
    | paymentIntentCanceled iid oidm =>
      cases oidm with
      | none => simp [handleWebhook]
      | some oid =>
        rcases hfo : findOrder os oid with _ | o <;> simp [handleWebhook, hfo]
    | chargeRefunded pi =>
      rcases hfo : findOrderByTxn os pi with _ | o <;> simp [handleWebhook, hfo]
    | otherEvent tg => simp [handleWebhook]
  · intro ev os now sr
    simp [handleWebhook]
  · intro tg os now sr
    simp [handleWebhook]

end ECom
